import Mathlib

/-
Shallow embedding of the pdf_merge_compress_tool pipeline.

The repository contains two variants of the same GUI tool:
  * src/pdf_tool_gui_logs.py      — English configuration keys
    (paths/ghostscript, merge/enabled/files/output, compress, settings/compression,
     pdfa/enabled/output/profile), embedded below in namespace `Eng`;
  * src/acionador_ghostscript.py  — localized (Portuguese) configuration keys
    (caminhos/ghostscript, juntar/ativado/arquivos/saida, compactar,
     parametros/compactacao, pdfa/perfil), embedded below in namespace `Acio`.

External collaborators are passed in as parameters, at their interfaces:
  * the filesystem, as an existence predicate `fs : String → Bool`
    (only queried for one path, the PDF/A definition file);
  * the external Ghostscript engine, as `engine : List String → ProcResult`
    mapping an argument vector to the subprocess result;
  * the interactive file picker, as `picker : List String`, the list of paths
    it would return if consulted.

Observable behaviour of one `process()` run is a `RunTrace`: the terminal
outcome (error dialog, Python NameError, or the final info dialog with the
accumulated success messages) together with the ordered list of argument
vectors passed to `run_gs`.  Log-file writes are pure diagnostics and are
abstracted away.

A Python local variable that may be read before any assignment (the localized
file has several, due to mis-indented blocks) is modelled as an `Option` that
is `none` while unbound; reading it while `none` produces `Outcome.crash`
with the variable's name, mirroring the `NameError` the interpreter raises.
-/

namespace PdfTool

/-- Result of `subprocess.run`: either the child completed with an exit code
and captured stdout/stderr, or an exception was raised while spawning or
waiting (modelled by its textual description). -/
inductive ProcResult where
  | completed (returncode : Int) (stdout : String) (stderr : String)
  | exc (msg : String)
deriving DecidableEq, Repr

/-- run_gs (identical in both source files, lines 32-61): classifies the
subprocess result.  Returns `(ok, errorDetail)`: success iff the exit code is
exactly 0; on a nonzero exit the captured stderr is the detail; on an
exception its textual description is the detail.  The log writes performed by
the source are diagnostics outside the embedded state. -/
def run_gs (engine : List String → ProcResult) (cmd : List String) : Bool × String :=
  match engine cmd with
  | .completed rc _ stderr => if rc ≠ 0 then (false, stderr) else (true, "")
  | .exc m => (false, m)

/-- os.path.dirname: the path up to (not including) the final separator.
Only the '/' separator is modelled. -/
def dirname (p : String) : String :=
  let parts := p.splitOn "/"
  if parts.length ≤ 1 then "" else String.intercalate "/" parts.dropLast

/-- Resolution of the PDF/A definition file (both files, lines 102-104):
`os.path.join(os.path.dirname(gs), "..", "..", "lib", "PDFA_def.ps")`.
The surrounding `os.path.abspath` normalization depends on the process working
directory, so the embedding keeps the joined path unnormalized; the filesystem
predicate is applied to this resolved string. -/
def pdfaDefPath (gs : String) : String :=
  dirname gs ++ "/../../lib/PDFA_def.ps"

/-- Message of the pre-flight error dialog (both files, line 108). -/
def preflightMsg (defp : String) : String :=
  "PDFA_def.ps não encontrado em:\n" ++ defp

/-- One entry of the merge stage's configured input list.  The localized file
accepts either a bare path string or a dict `{arquivo, pagina_inicial,
pagina_final}`.  A dict whose `arquivo` key is missing, None or the empty
string is Python-falsy and is skipped by the loop; the embedding folds all
three cases into `arquivo = ""`.  `pagina_inicial`/`pagina_final` are absent
(`none`) or an integer; the source guards them with Python truthiness, so a
present value of `0` is treated like an absent one. -/
inductive MergeItem where
  | str (path : String)
  | dict (arquivo : String) (pagina_inicial : Option Int) (pagina_final : Option Int)
deriving DecidableEq, Repr

/-- Terminal outcome of one `process()` run. -/
inductive Outcome where
  /-- an error dialog was shown and the function returned early -/
  | fatal (msg : String)
  /-- a NameError: the named local variable was read while unbound -/
  | crash (varName : String)
  /-- the final info dialog, with the accumulated success messages -/
  | done (messages : List String)
deriving DecidableEq, Repr

/-- Observable behaviour of one run: the outcome plus every argument vector
handed to `run_gs`, in order. -/
structure RunTrace where
  outcome : Outcome
  calls : List (List String)
deriving DecidableEq, Repr

/-- Engine stub that always exits 0 (the "always succeeds" mock). -/
def engineOk : List String → ProcResult := fun _ => .completed 0 "" ""

/-- Filesystem stub on which every path exists. -/
def fsAll : String → Bool := fun _ => true

/-! ## English-keys variant: src/pdf_tool_gui_logs.py -/

namespace Eng

/-- merge section (`config["merge"]`).  An absent section behaves as
`enabled = false` (the source reads it via `.get("merge", {})`), so it is
modelled as always present.  The source appends the configured `files` list
to the argument vector verbatim and performs no per-item shape handling; a
structured (dict) item would reach `subprocess` as a non-string and be
rejected, so the English configuration's merge inputs are typed as bare
paths. -/
structure MergeSec where
  enabled : Bool
  files : List String
  output : String
deriving DecidableEq, Repr

/-- compress section (`config["compress"]`). -/
structure CompressSec where
  enabled : Bool
  output : String
deriving DecidableEq, Repr

/-- pdfa section (`config["pdfa"]`).  `profile` (`.get("profile",
"PDF/A-2b")`) is consumed only by the log sink, never by the command
builder. -/
structure PdfaSec where
  enabled : Bool
  output : String
  profile : Option String
deriving DecidableEq, Repr

/-- The English-keys configuration document. -/
structure Config where
  ghostscript : String
  merge : MergeSec
  compress : CompressSec
  compression : String
  pdfa : PdfaSec
deriving DecidableEq, Repr

/-- Replace only the archive profile of a configuration. -/
def Config.withProfile (cfg : Config) (p : Option String) : Config :=
  { cfg with pdfa := { cfg.pdfa with profile := p } }

/-- Merge argument vector (lines 138-144). -/
def mergeCmd (gs output : String) (files : List String) : List String :=
  [gs, "-dBATCH", "-dNOPAUSE", "-sDEVICE=pdfwrite", "-sOutputFile=" ++ output] ++ files

/-- Compress argument vector (lines 171-179). -/
def compressCmd (gs output level inp : String) : List String :=
  [gs, "-dBATCH", "-dNOPAUSE", "-sDEVICE=pdfwrite", "-dPDFSETTINGS=/" ++ level,
   "-sOutputFile=" ++ output, inp]

/-- PDF/A argument vector (lines 204-215). -/
def pdfaCmd (gs defp output inp : String) : List String :=
  [gs, "-dPDFA=2", "-sDEVICE=pdfwrite", "-dNOPAUSE", "-dBATCH", "-dNOOUTERSAVE",
   "-sColorConversionStrategy=RGB", "-sProcessColorModel=DeviceRGB",
   "-sOutputFile=" ++ output, "-dPDFACompatibilityPolicy=1", defp, inp]

/-- Stage 3, PDF/A (lines 192-222).  `inp` is `input_for_next_step`, which in
this file is always bound (`None` when no earlier stage produced an
artifact). -/
def stage3 (engine : List String → ProcResult) (gs defp : String) (sec : PdfaSec)
    (msgs : List String) (calls : List (List String)) (inp : Option String) : RunTrace :=
  if sec.enabled then
    match inp with
    | none => ⟨.fatal "Nenhum PDF para PDF/A.", calls⟩
    | some i =>
      let cmd := pdfaCmd gs defp sec.output i
      let r := run_gs engine cmd
      if r.1 then ⟨.done (msgs ++ ["PDF/A OK → " ++ sec.output]), calls ++ [cmd]⟩
      else ⟨.fatal r.2, calls ++ [cmd]⟩
  else ⟨.done msgs, calls⟩

/-- Stage 2, compress (lines 159-187), continuing into stage 3. -/
def stage2 (engine : List String → ProcResult) (gs defp : String) (csec : CompressSec)
    (level : String) (psec : PdfaSec) (msgs : List String) (calls : List (List String))
    (inp : Option String) : RunTrace :=
  if csec.enabled then
    match inp with
    | none => ⟨.fatal "Nenhum PDF para compressão.", calls⟩
    | some i =>
      let cmd := compressCmd gs csec.output level i
      let r := run_gs engine cmd
      if r.1 then
        stage3 engine gs defp psec (msgs ++ ["Compressão OK → " ++ csec.output])
          (calls ++ [cmd]) (some csec.output)
      else ⟨.fatal r.2, calls ++ [cmd]⟩
  else stage3 engine gs defp psec msgs calls inp

/-- The whole `process()` of src/pdf_tool_gui_logs.py (lines 87-228), from the
point where the configuration has been loaded.  Pre-flight checks the PDF/A
definition file, then runs merge → compress → pdfa, short-circuiting on the
first failure. -/
def process (fs : String → Bool) (engine : List String → ProcResult)
    (picker : List String) (cfg : Config) : RunTrace :=
  let gs := cfg.ghostscript
  let defp := pdfaDefPath gs
  if fs defp then
    if cfg.merge.enabled then
      let files0 := cfg.merge.files
      let files := if files0.isEmpty then picker else files0
      if files.isEmpty then ⟨.fatal "Nenhum arquivo para merge.", []⟩
      else
        let output := cfg.merge.output
        let cmd := mergeCmd gs output files
        let r := run_gs engine cmd
        if r.1 then
          stage2 engine gs defp cfg.compress cfg.compression cfg.pdfa
            ["Merge OK → " ++ output] [cmd] (some output)
        else ⟨.fatal r.2, [cmd]⟩
    else
      stage2 engine gs defp cfg.compress cfg.compression cfg.pdfa [] [] none
  else ⟨.fatal (preflightMsg defp), []⟩

end Eng

/-! ## Localized-keys variant: src/acionador_ghostscript.py -/

namespace Acio

/-- juntar section (`config["juntar"]`); absent section behaves as
`ativado = false`. -/
structure JuntarSec where
  ativado : Bool
  arquivos : List MergeItem
  saida : String
deriving DecidableEq, Repr

/-- compactar section (`config["compactar"]`). -/
structure CompactarSec where
  ativado : Bool
  saida : String
deriving DecidableEq, Repr

/-- pdfa section; `perfil` (`.get("perfil", "PDF/A-2b")`) is consumed only by
the log sink. -/
structure PdfaSec where
  ativado : Bool
  saida : String
  perfil : Option String
deriving DecidableEq, Repr

/-- The localized-keys configuration document
(`caminhos/ghostscript`, `parametros/compactacao`). -/
structure Config where
  ghostscript : String
  juntar : JuntarSec
  compactar : CompactarSec
  compactacao : String
  pdfa : PdfaSec
deriving DecidableEq, Repr

/-- Replace only the archive profile of a configuration. -/
def Config.withPerfil (cfg : Config) (p : Option String) : Config :=
  { cfg with pdfa := { cfg.pdfa with perfil := p } }

/-- The page-range flags emitted for one dict item (lines 157-164): a
`-dFirstPage=`/`-dLastPage=` flag for each bound that is present and
Python-truthy (nonzero). -/
def pageFlags (pagina_inicial pagina_final : Option Int) : List String :=
  (match pagina_inicial with
   | some n => if n ≠ 0 then ["-dFirstPage=" ++ toString n] else []
   | none => []) ++
  (match pagina_final with
   | some n => if n ≠ 0 then ["-dLastPage=" ++ toString n] else []
   | none => [])

/-- The arguments one input item contributes to the merge command
(loop body, lines 147-166): a bare path verbatim; for a dict, its page-range
flags followed by its path, or nothing when the path is Python-falsy (the
`continue` branch). -/
def itemArgs : MergeItem → List String
  | .str path => [path]
  | .dict arquivo pagina_inicial pagina_final =>
      if arquivo = "" then [] else pageFlags pagina_inicial pagina_final ++ [arquivo]

/-- Fixed head of the merge command (lines 138-144). -/
def mergePrefix (gs saida : String) : List String :=
  [gs, "-dBATCH", "-dNOPAUSE", "-sDEVICE=pdfwrite", "-sOutputFile=" ++ saida]

/-- The full merge argument vector after the loop has consumed `items`:
the fixed head followed by each item's own arguments, in order. -/
def buildMergeCmd (gs saida : String) (items : List MergeItem) : List String :=
  mergePrefix gs saida ++ (items.map itemArgs).flatten

/-- Compress argument vector (lines 194-202). -/
def compressCmd (gs saida level inp : String) : List String :=
  [gs, "-dBATCH", "-dNOPAUSE", "-sDEVICE=pdfwrite", "-dPDFSETTINGS=/" ++ level,
   "-sOutputFile=" ++ saida, inp]

/-- PDF/A argument vector (lines 227-238). -/
def pdfaCmd (gs defp saida inp : String) : List String :=
  [gs, "-dPDFA=2", "-sDEVICE=pdfwrite", "-dNOPAUSE", "-dBATCH", "-dNOOUTERSAVE",
   "-sColorConversionStrategy=RGB", "-sProcessColorModel=DeviceRGB",
   "-sOutputFile=" ++ saida, "-dPDFACompatibilityPolicy=1", defp, inp]

/-- Stage 3, PDF/A (lines 215-245).  In this file `input_for_next_step` is
never assigned at all when no merge/compress iteration succeeded, so `inp`
models the local itself: `none` = unbound, and line 218 reading it raises a
NameError.  When bound it always holds a string, so the `is None` guard of
line 218 never fires and its "Nenhum PDF para PDF/A." dialog is
unreachable. -/
def stage3 (engine : List String → ProcResult) (gs defp : String) (sec : PdfaSec)
    (msgs : List String) (calls : List (List String)) (inp : Option String) : RunTrace :=
  if sec.ativado then
    match inp with
    | none => ⟨.crash "input_for_next_step", calls⟩
    | some i =>
      let cmd := pdfaCmd gs defp sec.saida i
      let r := run_gs engine cmd
      if r.1 then ⟨.done (msgs ++ ["PDF/A OK → " ++ sec.saida]), calls ++ [cmd]⟩
      else ⟨.fatal r.2, calls ++ [cmd]⟩
  else ⟨.done msgs, calls⟩

/-- Stage 2, compactar (lines 182-210), continuing into stage 3.  As in
`stage3`, `inp = none` means the local `input_for_next_step` is unbound and
line 185 reading it raises a NameError; the bound value is always a string,
so the "Nenhum PDF para compactação." dialog of line 186 is unreachable. -/
def stage2 (engine : List String → ProcResult) (gs defp : String) (csec : CompactarSec)
    (level : String) (psec : PdfaSec) (msgs : List String) (calls : List (List String))
    (inp : Option String) : RunTrace :=
  if csec.ativado then
    match inp with
    | none => ⟨.crash "input_for_next_step", calls⟩
    | some i =>
      let cmd := compressCmd gs csec.saida level i
      let r := run_gs engine cmd
      if r.1 then
        stage3 engine gs defp psec (msgs ++ ["Compressão OK → " ++ csec.saida])
          (calls ++ [cmd]) (some csec.saida)
      else ⟨.fatal r.2, calls ++ [cmd]⟩
  else stage3 engine gs defp psec msgs calls inp

/-- The merge loop of lines 147-177.  Because lines 171-177 are indented into
the `for` body, `run_gs` is invoked after EACH item is appended (with the
command vector as grown so far), a success message is appended per item, and
`input_for_next_step` is (re)assigned per item; a dict item with a falsy path
`continue`s past all of that.  On a failed invocation the whole run aborts.
After the loop the run falls through to stage 2. -/
def mergeLoop (engine : List String → ProcResult) (gs defp saida : String)
    (csec : CompactarSec) (level : String) (psec : PdfaSec)
    (cmd : List String) (msgs : List String) (calls : List (List String))
    (inp : Option String) : List MergeItem → RunTrace
  | [] => stage2 engine gs defp csec level psec msgs calls inp
  | item :: rest =>
    match item with
    | .str path =>
      let cmd2 := cmd ++ [path]
      let r := run_gs engine cmd2
      if r.1 then
        mergeLoop engine gs defp saida csec level psec cmd2
          (msgs ++ ["Junção OK → " ++ saida]) (calls ++ [cmd2]) (some saida) rest
      else ⟨.fatal r.2, calls ++ [cmd2]⟩
    | .dict arquivo pagina_inicial pagina_final =>
      if arquivo = "" then
        mergeLoop engine gs defp saida csec level psec cmd msgs calls inp rest
      else
        let cmd2 := cmd ++ (pageFlags pagina_inicial pagina_final ++ [arquivo])
        let r := run_gs engine cmd2
        if r.1 then
          mergeLoop engine gs defp saida csec level psec cmd2
            (msgs ++ ["Junção OK → " ++ saida]) (calls ++ [cmd2]) (some saida) rest
        else ⟨.fatal r.2, calls ++ [cmd2]⟩

/-- The whole `process()` of src/acionador_ghostscript.py (lines 87-251),
from the point where the configuration has been loaded.  The block of lines
138-177 (command head construction and the item loop) sits OUTSIDE the
`if ativado:` of line 118 in the source, so it executes even when the merge
stage is disabled; the locals `saida_juncao` and `merge_files` are then
unbound and line 143 / line 147 raise a NameError (line 143, inside the
command list literal, is reached first). -/
def process (fs : String → Bool) (engine : List String → ProcResult)
    (picker : List String) (cfg : Config) : RunTrace :=
  let gs := cfg.ghostscript
  let defp := pdfaDefPath gs
  if fs defp then
    let bound : Except RunTrace (Option (List MergeItem) × Option String) :=
      if cfg.juntar.ativado then
        let files0 := cfg.juntar.arquivos
        let files := if files0.isEmpty then picker.map MergeItem.str else files0
        if files.isEmpty then .error ⟨.fatal "Nenhum arquivo para juntar.", []⟩
        else .ok (some files, some cfg.juntar.saida)
      else .ok (none, none)
    match bound with
    | .error t => t
    | .ok (mf, ms) =>
      match ms with
      | none => ⟨.crash "saida_juncao", []⟩
      | some saida =>
        match mf with
        | none => ⟨.crash "merge_files", []⟩
        | some files =>
          mergeLoop engine gs defp saida cfg.compactar cfg.compactacao cfg.pdfa
            (mergePrefix gs saida) [] [] none files
  else ⟨.fatal (preflightMsg defp), []⟩

/-- An input item the loop actually runs the engine for: a bare path, or a
dict whose path is not Python-falsy (otherwise the `continue` of line 155
skips the invocation). -/
def runnable : MergeItem → Bool
  | .str _ => true
  | .dict arquivo _ _ => arquivo ≠ ""

end Acio

/-! ## Helper lemmas -/

/-- The command vectors of the first `k+1` prefixes of `it :: rest`, peeled by
one item: the head invocation carries `cmd ++ itemArgs it`, and the later ones
grow from there. -/
theorem prefix_cmds_cons (cmd : List String) (it : MergeItem) (rest : List MergeItem) :
    (List.range (rest.length + 1)).map
        (fun k => cmd ++ (((it :: rest).take (k + 1)).map Acio.itemArgs).flatten)
      = (cmd ++ Acio.itemArgs it) ::
        (List.range rest.length).map
          (fun k => (cmd ++ Acio.itemArgs it) ++ ((rest.take (k + 1)).map Acio.itemArgs).flatten) := by
  rw [List.range_succ_eq_map, List.map_cons, List.map_map]
  simp [Function.comp_def, List.take_succ_cons, List.append_assoc]

/-- Behaviour of the localized merge loop when later stages are disabled,
every item is runnable and every engine invocation exits 0: one invocation
per item with the command vector as grown so far, one success message per
item. -/
theorem acio_mergeLoop_ok (engine : List String → ProcResult)
    (gs defp saida level : String) (csec : Acio.CompactarSec) (psec : Acio.PdfaSec)
    (hc : csec.ativado = false) (hp : psec.ativado = false)
    (hE : ∀ c, (run_gs engine c).1 = true) :
    ∀ (items : List MergeItem), (∀ it ∈ items, Acio.runnable it = true) →
      ∀ (cmd : List String) (msgs : List String) (calls : List (List String))
        (inp : Option String),
        Acio.mergeLoop engine gs defp saida csec level psec cmd msgs calls inp items =
          ⟨.done (msgs ++ List.replicate items.length ("Junção OK → " ++ saida)),
           calls ++ (List.range items.length).map
             (fun k => cmd ++ ((items.take (k + 1)).map Acio.itemArgs).flatten)⟩ := by
  intro items
  induction items with
  | nil =>
    intro _ cmd msgs calls inp
    simp [Acio.mergeLoop, Acio.stage2, Acio.stage3, hc, hp]
  | cons it rest ih =>
    intro hall cmd msgs calls inp
    have hit : Acio.runnable it = true := hall it (by simp)
    have hrest : ∀ x ∈ rest, Acio.runnable x = true := fun x hx => hall x (by simp [hx])
    cases it with
    | str path =>
      have step : Acio.mergeLoop engine gs defp saida csec level psec cmd msgs calls inp
            (MergeItem.str path :: rest)
          = Acio.mergeLoop engine gs defp saida csec level psec (cmd ++ [path])
              (msgs ++ ["Junção OK → " ++ saida]) (calls ++ [cmd ++ [path]]) (some saida)
              rest := by
        simp [Acio.mergeLoop, hE]
      rw [step, ih hrest, List.length_cons, prefix_cmds_cons]
      simp [List.replicate_succ, List.append_assoc, Acio.itemArgs]
    | dict arquivo pagina_inicial pagina_final =>
      have hne : ¬ arquivo = "" := by
        simpa [Acio.runnable] using hit
      have step : Acio.mergeLoop engine gs defp saida csec level psec cmd msgs calls inp
            (MergeItem.dict arquivo pagina_inicial pagina_final :: rest)
          = Acio.mergeLoop engine gs defp saida csec level psec
              (cmd ++ (Acio.pageFlags pagina_inicial pagina_final ++ [arquivo]))
              (msgs ++ ["Junção OK → " ++ saida])
              (calls ++ [cmd ++ (Acio.pageFlags pagina_inicial pagina_final ++ [arquivo])])
              (some saida) rest := by
        simp [Acio.mergeLoop, hne, hE]
      rw [step, ih hrest, List.length_cons, prefix_cmds_cons]
      simp [List.replicate_succ, List.append_assoc, Acio.itemArgs, hne]

/-- The localized merge loop never reads the archive profile: replacing it
leaves the loop's behaviour unchanged. -/
theorem acio_mergeLoop_perfil_irrel (engine : List String → ProcResult)
    (gs defp saida level : String) (csec : Acio.CompactarSec)
    (pe : Bool) (po : String) (p q : Option String) :
    ∀ (items : List MergeItem) (cmd msgs : List String) (calls : List (List String))
      (inp : Option String),
      Acio.mergeLoop engine gs defp saida csec level ⟨pe, po, p⟩ cmd msgs calls inp items =
        Acio.mergeLoop engine gs defp saida csec level ⟨pe, po, q⟩ cmd msgs calls inp items := by
  intro items
  induction items with
  | nil => intro cmd msgs calls inp; rfl
  | cons it rest ih =>
    intro cmd msgs calls inp
    cases it with
    | str path =>
      simp only [Acio.mergeLoop]
      split
      · exact ih _ _ _ _
      · rfl
    | dict arquivo pagina_inicial pagina_final =>
      simp only [Acio.mergeLoop]
      by_cases harq : arquivo = ""
      · simp only [harq, if_true, ite_true]
        exact ih _ _ _ _
      · simp only [harq, if_false, ite_false]
        split
        · exact ih _ _ _ _
        · rfl

/-- The whole localized run never reads the archive profile. -/
theorem acio_process_perfil_irrel (fs : String → Bool)
    (engine : List String → ProcResult) (picker : List String) (gs : String)
    (j : Acio.JuntarSec) (c : Acio.CompactarSec) (l : String)
    (pe : Bool) (po : String) (p q : Option String) :
    Acio.process fs engine picker ⟨gs, j, c, l, ⟨pe, po, p⟩⟩ =
      Acio.process fs engine picker ⟨gs, j, c, l, ⟨pe, po, q⟩⟩ := by
  simp only [Acio.process]
  split
  · split
    · rfl
    · split
      · rfl
      · split
        · rfl
        · exact acio_mergeLoop_perfil_irrel engine gs _ _ l c pe po p q _ _ _ _ _
  · rfl

/-! ## Claim theorems -/

/-- C1: in the merge command built by the localized loop, a structured item's
page-range flags sit immediately before that item's own path, after exactly
the arguments contributed by the earlier items; the segment built for the
later items is `(post.map itemArgs).flatten`, a term independent of this
item's bounds, so the flags do not leak onto any other item's path. -/
theorem merge_page_flags_scoped (gs saida : String) (pre post : List MergeItem)
    (arquivo : String) (pagina_inicial pagina_final : Option Int) (h : arquivo ≠ "") :
    Acio.buildMergeCmd gs saida
        (pre ++ MergeItem.dict arquivo pagina_inicial pagina_final :: post) =
      Acio.buildMergeCmd gs saida pre
        ++ (Acio.pageFlags pagina_inicial pagina_final ++ [arquivo])
        ++ (post.map Acio.itemArgs).flatten := by
  simp [Acio.buildMergeCmd, Acio.itemArgs, h, List.append_assoc]

/-- Witness for C1 at a concrete input. -/
theorem merge_page_flags_scoped_witness :
    Acio.buildMergeCmd "gs" "merged.pdf"
        ([MergeItem.str "x.pdf"] ++ MergeItem.dict "a.pdf" (some 2) (some 4) :: [MergeItem.str "y.pdf"]) =
      Acio.buildMergeCmd "gs" "merged.pdf" [MergeItem.str "x.pdf"]
        ++ (Acio.pageFlags (some 2) (some 4) ++ ["a.pdf"])
        ++ ([MergeItem.str "y.pdf"].map Acio.itemArgs).flatten :=
  merge_page_flags_scoped "gs" "merged.pdf" [MergeItem.str "x.pdf"] [MergeItem.str "y.pdf"]
    "a.pdf" (some 2) (some 4) (by decide)

/-- C2 (code_bug evidence): evaluating the localized implementation on the
spec's end-to-end scenario (merge enabled with `[{a.pdf, 2, 4}, b.pdf]`,
output merged.pdf, compress and archive disabled, engine always exits 0):
because lines 171-177 sit inside the item loop, the engine is invoked twice
— once after a.pdf with its page flags, once more after b.pdf — and one
per-item success message is recorded per invocation, instead of the single
invocation and single-message list the claim states.  The final invocation's
argv does end with the first-page=2 flag, the last-page=4 flag, a.pdf,
b.pdf. -/
theorem merge_scenario_localized_trace :
    Acio.process fsAll engineOk []
      ⟨"gs", ⟨true, [.dict "a.pdf" (some 2) (some 4), .str "b.pdf"], "merged.pdf"⟩,
       ⟨false, "compressed.pdf"⟩, "ebook", ⟨false, "archived.pdf", none⟩⟩ =
      ⟨.done ["Junção OK → merged.pdf", "Junção OK → merged.pdf"],
       [["gs", "-dBATCH", "-dNOPAUSE", "-sDEVICE=pdfwrite", "-sOutputFile=merged.pdf",
         "-dFirstPage=2", "-dLastPage=4", "a.pdf"],
        ["gs", "-dBATCH", "-dNOPAUSE", "-sDEVICE=pdfwrite", "-sOutputFile=merged.pdf",
         "-dFirstPage=2", "-dLastPage=4", "a.pdf", "b.pdf"]]⟩ := by
  rfl

/-- C3 (counterexample): the same all-stages-disabled document, written with
corresponding keys in each scheme, produces different execution outcomes:
the English-keys implementation completes with an empty success list, the
localized-keys implementation aborts with a NameError on `saida_juncao`. -/
theorem schemes_not_equivalent_cex :
    Eng.process fsAll engineOk []
        ⟨"gs", ⟨false, [], "merged.pdf"⟩, ⟨false, "compressed.pdf"⟩, "ebook",
         ⟨false, "archived.pdf", none⟩⟩ = ⟨.done [], []⟩ ∧
    Acio.process fsAll engineOk []
        ⟨"gs", ⟨false, [], "merged.pdf"⟩, ⟨false, "compressed.pdf"⟩, "ebook",
         ⟨false, "archived.pdf", none⟩⟩ = ⟨.crash "saida_juncao", []⟩ ∧
    (⟨.done [], []⟩ : RunTrace) ≠ ⟨.crash "saida_juncao", []⟩ := by
  refine ⟨rfl, rfl, by decide⟩

/-- C3 (amended): the two schemes agree on the compress-stage and
archive-stage argument vectors and share the pre-flight gating, but the
implementations do not produce the same execution outcome on corresponding
configurations: with every stage disabled the English-keys implementation
returns an empty success list with zero engine invocations, while the
localized-keys implementation aborts with an unbound-variable error (also
with zero invocations). -/
theorem schemes_agree_on_compress_archive :
    (∀ gs saida level inp, Acio.compressCmd gs saida level inp = Eng.compressCmd gs saida level inp) ∧
    (∀ gs defp saida inp, Acio.pdfaCmd gs defp saida inp = Eng.pdfaCmd gs defp saida inp) ∧
    (∀ (fs : String → Bool) (engine : List String → ProcResult) (picker : List String)
        (ecfg : Eng.Config) (acfg : Acio.Config),
        ecfg.merge.enabled = false → ecfg.compress.enabled = false → ecfg.pdfa.enabled = false →
        acfg.juntar.ativado = false → acfg.compactar.ativado = false → acfg.pdfa.ativado = false →
        fs (pdfaDefPath ecfg.ghostscript) = true → fs (pdfaDefPath acfg.ghostscript) = true →
        Eng.process fs engine picker ecfg = ⟨.done [], []⟩ ∧
        Acio.process fs engine picker acfg = ⟨.crash "saida_juncao", []⟩) := by
  refine ⟨fun _ _ _ _ => rfl, fun _ _ _ _ => rfl, ?_⟩
  intro fs engine picker ecfg acfg hme hce hpe hja hca hpa hfe hfa
  constructor
  · simp [Eng.process, Eng.stage2, Eng.stage3, hme, hce, hpe, hfe]
  · simp [Acio.process, hja, hfa]

/-- Witness for the amended C3 at a concrete input. -/
theorem schemes_agree_on_compress_archive_witness :
    Eng.process fsAll engineOk []
        ⟨"gs", ⟨false, [], "m.pdf"⟩, ⟨false, "c.pdf"⟩, "ebook", ⟨false, "p.pdf", none⟩⟩ =
      ⟨.done [], []⟩ :=
  (schemes_agree_on_compress_archive.2.2 fsAll engineOk []
      ⟨"gs", ⟨false, [], "m.pdf"⟩, ⟨false, "c.pdf"⟩, "ebook", ⟨false, "p.pdf", none⟩⟩
      ⟨"gs", ⟨false, [], "m.pdf"⟩, ⟨false, "c.pdf"⟩, "ebook", ⟨false, "p.pdf", none⟩⟩
      rfl rfl rfl rfl rfl rfl rfl rfl).1

/-- C4 (code_bug evidence): evaluating the localized implementation on an
all-stages-disabled configuration: instead of completing normally with an
empty success list, the run aborts with a NameError on `saida_juncao`
(line 143 executes outside the disabled merge block).  The engine is still
invoked zero times.  The English-keys implementation behaves as the claim
states (see the amended C3 theorem). -/
theorem all_stages_disabled_localized_run :
    Acio.process fsAll engineOk []
      ⟨"gswin64c", ⟨false, [], "merged.pdf"⟩, ⟨false, "compressed.pdf"⟩, "printer",
       ⟨false, "archived.pdf", none⟩⟩ = ⟨.crash "saida_juncao", []⟩ := by
  rfl

/-- C5: in the localized implementation, whenever the merge stage is disabled
(and pre-flight passes), control still reaches the merge command construction
of lines 138-144 with `saida_juncao` and `merge_files` unbound, so the run
aborts with an unbound-variable error — reading `saida_juncao` inside the
command list literal — after zero engine invocations, instead of reporting a
stage result. -/
theorem merge_disabled_unbound_crash (fs : String → Bool)
    (engine : List String → ProcResult) (picker : List String) (cfg : Acio.Config)
    (hm : cfg.juntar.ativado = false) (hfs : fs (pdfaDefPath cfg.ghostscript) = true) :
    Acio.process fs engine picker cfg = ⟨.crash "saida_juncao", []⟩ := by
  simp [Acio.process, hm, hfs]

/-- Witness for C5 at a concrete input (with a later stage enabled). -/
theorem merge_disabled_unbound_crash_witness :
    Acio.process fsAll engineOk []
      ⟨"gs", ⟨false, [], "m.pdf"⟩, ⟨false, "c.pdf"⟩, "ebook",
       ⟨true, "p.pdf", some "PDF/A-2b"⟩⟩ = ⟨.crash "saida_juncao", []⟩ :=
  merge_disabled_unbound_crash fsAll engineOk []
    ⟨"gs", ⟨false, [], "m.pdf"⟩, ⟨false, "c.pdf"⟩, "ebook", ⟨true, "p.pdf", some "PDF/A-2b"⟩⟩
    rfl rfl

/-- C6 (counterexample): a non-empty merge-input list of length 1 whose only
item is a structured item with a Python-falsy path: the loop `continue`s past
the invocation, so the engine is invoked zero times and zero messages are
recorded, not once per item. -/
theorem merge_per_item_cex :
    Acio.process fsAll engineOk []
      ⟨"gs", ⟨true, [.dict "" none none], "m.pdf"⟩, ⟨false, "c.pdf"⟩, "ebook",
       ⟨false, "p.pdf", none⟩⟩ = ⟨.done [], []⟩ ∧
    [MergeItem.dict "" none none].length = 1 := ⟨rfl, rfl⟩

/-- C6 (amended): in the localized implementation, for every non-empty
merge-input list whose structured items all carry a non-falsy path, when
every engine invocation exits 0 (and later stages are disabled, isolating the
merge stage) the stage invokes the engine once per item — the k-th invocation
carrying the command vector as built up to and including the k-th item — and
appends one per-item success message, rather than one invocation and one
message for the whole stage. -/
theorem merge_invokes_engine_per_item (fs : String → Bool)
    (engine : List String → ProcResult) (picker : List String) (cfg : Acio.Config)
    (hfs : fs (pdfaDefPath cfg.ghostscript) = true)
    (hm : cfg.juntar.ativado = true)
    (hne : cfg.juntar.arquivos ≠ [])
    (hrun : ∀ it ∈ cfg.juntar.arquivos, Acio.runnable it = true)
    (hE : ∀ c, (run_gs engine c).1 = true)
    (hc : cfg.compactar.ativado = false)
    (hp : cfg.pdfa.ativado = false) :
    Acio.process fs engine picker cfg =
      ⟨.done (List.replicate cfg.juntar.arquivos.length ("Junção OK → " ++ cfg.juntar.saida)),
       (List.range cfg.juntar.arquivos.length).map
         (fun k => Acio.buildMergeCmd cfg.ghostscript cfg.juntar.saida
            (cfg.juntar.arquivos.take (k + 1)))⟩ := by
  rcases harq : cfg.juntar.arquivos with _ | ⟨it, rest⟩
  · exact absurd harq hne
  · have hrun2 : ∀ x ∈ it :: rest, Acio.runnable x = true := by
      rw [← harq]; exact hrun
    simp only [Acio.process, hfs, hm, harq, if_true, List.isEmpty_cons, Bool.false_eq_true,
      ite_false]
    rw [acio_mergeLoop_ok engine cfg.ghostscript (pdfaDefPath cfg.ghostscript)
      cfg.juntar.saida cfg.compactacao cfg.compactar cfg.pdfa hc hp hE (it :: rest) hrun2]
    simp [Acio.buildMergeCmd, List.append_assoc]

/-- Witness for the amended C6 at a concrete input. -/
theorem merge_invokes_engine_per_item_witness :
    Acio.process fsAll engineOk []
      ⟨"gs", ⟨true, [.str "a.pdf", .dict "b.pdf" (some 1) none], "m.pdf"⟩,
       ⟨false, "c.pdf"⟩, "ebook", ⟨false, "p.pdf", none⟩⟩ =
      ⟨.done (List.replicate ([MergeItem.str "a.pdf", .dict "b.pdf" (some 1) none].length)
                ("Junção OK → " ++ "m.pdf")),
       (List.range ([MergeItem.str "a.pdf", .dict "b.pdf" (some 1) none].length)).map
         (fun k => Acio.buildMergeCmd "gs" "m.pdf"
            ([MergeItem.str "a.pdf", .dict "b.pdf" (some 1) none].take (k + 1)))⟩ :=
  merge_invokes_engine_per_item fsAll engineOk []
    ⟨"gs", ⟨true, [.str "a.pdf", .dict "b.pdf" (some 1) none], "m.pdf"⟩,
     ⟨false, "c.pdf"⟩, "ebook", ⟨false, "p.pdf", none⟩⟩
    rfl rfl (by decide) (by decide) (fun _ => rfl) rfl rfl

/-- C7: in both implementations, if the PDF/A definition resource does not
exist at its resolved path, the run fails during pre-flight with the
dedicated error message and the engine is invoked zero times. -/
theorem missing_pdfa_def_preflight (fs : String → Bool)
    (engine : List String → ProcResult) (picker : List String)
    (ecfg : Eng.Config) (acfg : Acio.Config)
    (he : fs (pdfaDefPath ecfg.ghostscript) = false)
    (ha : fs (pdfaDefPath acfg.ghostscript) = false) :
    Eng.process fs engine picker ecfg =
        ⟨.fatal (preflightMsg (pdfaDefPath ecfg.ghostscript)), []⟩ ∧
    Acio.process fs engine picker acfg =
        ⟨.fatal (preflightMsg (pdfaDefPath acfg.ghostscript)), []⟩ := by
  constructor
  · simp [Eng.process, he]
  · simp [Acio.process, ha]

/-- Witness for C7 at a concrete input. -/
theorem missing_pdfa_def_preflight_witness :
    Eng.process (fun _ => false) engineOk []
        ⟨"gs", ⟨true, ["a.pdf"], "m.pdf"⟩, ⟨true, "c.pdf"⟩, "ebook", ⟨true, "p.pdf", none⟩⟩ =
      ⟨.fatal (preflightMsg (pdfaDefPath "gs")), []⟩ :=
  (missing_pdfa_def_preflight (fun _ => false) engineOk []
      ⟨"gs", ⟨true, ["a.pdf"], "m.pdf"⟩, ⟨true, "c.pdf"⟩, "ebook", ⟨true, "p.pdf", none⟩⟩
      ⟨"gs", ⟨true, [], "m.pdf"⟩, ⟨true, "c.pdf"⟩, "ebook", ⟨true, "p.pdf", none⟩⟩
      rfl rfl).1

/-- C8 (code_bug evidence): evaluating the localized implementation with the
compress stage enabled and the merge stage disabled: instead of failing with
the no-input dialog at the compress stage, the run aborts earlier with a
NameError on `saida_juncao` (the mis-indented merge command construction).
The engine is never invoked, for compression or otherwise.  The English-keys
implementation shows the claimed no-input failure. -/
theorem compress_without_merge_localized_run :
    Acio.process fsAll engineOk []
      ⟨"gs", ⟨false, [], "merged.pdf"⟩, ⟨true, "compressed.pdf"⟩, "ebook",
       ⟨false, "archived.pdf", none⟩⟩ = ⟨.crash "saida_juncao", []⟩ := by
  rfl

/-- C9: the process runner classifies an invocation as success iff the child
exit code is exactly 0; a nonzero exit yields failure with the captured
stderr as the detail, and an exception while spawning/waiting yields failure
with the exception's textual description as the detail. -/
theorem run_gs_classification (engine : List String → ProcResult) (cmd : List String) :
    ((run_gs engine cmd).1 = true ↔ ∃ out err, engine cmd = .completed 0 out err) ∧
    (∀ rc out err, engine cmd = .completed rc out err → rc ≠ 0 →
        run_gs engine cmd = (false, err)) ∧
    (∀ m, engine cmd = .exc m → run_gs engine cmd = (false, m)) := by
  refine ⟨?_, ?_, ?_⟩
  · cases h : engine cmd with
    | completed rc out err =>
      by_cases hrc : rc = 0
      · subst hrc; simp [run_gs, h]
      · simp [run_gs, h, hrc]
    | exc m => simp [run_gs, h]
  · intro rc out err h hrc
    simp [run_gs, h, hrc]
  · intro m h
    simp [run_gs, h]

/-- Witness for C9 at a concrete input (nonzero exit carries the stderr). -/
theorem run_gs_classification_witness :
    run_gs (fun _ => .completed 1 "out" "boom") ["x"] = (false, "boom") :=
  (run_gs_classification (fun _ => .completed 1 "out" "boom") ["x"]).2.1 1 "out" "boom"
    rfl (by decide)

/-- C10: in both implementations, changing only the configured archive
profile (with the archive stage enabled) leaves the whole observable run —
every built argument vector and the outcome — unchanged; the profile is
consumed only by the log sink. -/
theorem archive_profile_frame (fs : String → Bool)
    (engine : List String → ProcResult) (picker : List String)
    (ecfg : Eng.Config) (acfg : Acio.Config) (p q : Option String)
    (he : ecfg.pdfa.enabled = true) (ha : acfg.pdfa.ativado = true) :
    Eng.process fs engine picker (ecfg.withProfile p) =
        Eng.process fs engine picker (ecfg.withProfile q) ∧
    Acio.process fs engine picker (acfg.withPerfil p) =
        Acio.process fs engine picker (acfg.withPerfil q) := by
  obtain ⟨gs1, m1, c1, l1, ⟨pe1, po1, pr1⟩⟩ := ecfg
  obtain ⟨gs2, j2, c2, l2, ⟨pe2, po2, pr2⟩⟩ := acfg
  exact ⟨rfl, acio_process_perfil_irrel fs engine picker gs2 j2 c2 l2 pe2 po2 p q⟩

/-- Witness for C10 at a concrete input. -/
theorem archive_profile_frame_witness :
    Eng.process fsAll engineOk []
        (Eng.Config.withProfile
          ⟨"gs", ⟨false, [], "m.pdf"⟩, ⟨false, "c.pdf"⟩, "ebook", ⟨true, "p.pdf", none⟩⟩
          (some "PDF/A-1b")) =
      Eng.process fsAll engineOk []
        (Eng.Config.withProfile
          ⟨"gs", ⟨false, [], "m.pdf"⟩, ⟨false, "c.pdf"⟩, "ebook", ⟨true, "p.pdf", none⟩⟩
          (some "PDF/A-3b")) :=
  (archive_profile_frame fsAll engineOk []
      ⟨"gs", ⟨false, [], "m.pdf"⟩, ⟨false, "c.pdf"⟩, "ebook", ⟨true, "p.pdf", none⟩⟩
      ⟨"gs", ⟨false, [], "m.pdf"⟩, ⟨false, "c.pdf"⟩, "ebook", ⟨true, "p.pdf", none⟩⟩
      (some "PDF/A-1b") (some "PDF/A-3b") rfl rfl).1

end PdfTool
